import Mathlib

/-!
Shallow embedding of the Dynamo connector core found in
`src/src/components/DropZone.tsx` (the `useDynamoConnector` hook):
the connection-state enumeration, the `portDiscovery` round, the
`dynamoLocalService` facade with its error-feedback catch handlers,
the two `useEffect` reactions (initial discovery and the 2-second
retry timer), and the serial request queue fronting the facade.

Promises are embedded by making the asynchronous outcomes explicit
inputs: a facade operation takes the settled result of the underlying
HTTP call (`Except JsError α`), and a discovery round takes the list of
probe outcomes in the order in which the probe promises settle, so that
`Promise.any` becomes "first fulfilled element of the list".
-/

namespace DynamoConnector

/-- Connection states, embedding the `DynamoConnectionState` enum
(DropZone.tsx lines 99-106). -/
inductive DynamoConnectionState where
  | INIT
  | CONNECTED
  | MULTIPLE_CONNECTIONS
  | NOT_CONNECTED
  | BLOCKED
  | LOST_CONNECTION
  deriving DecidableEq, Repr

/-- Opaque graph payload; the connector forwards it without interpreting
its contents, so a single string field suffices for the embedding. -/
structure GraphInfo where
  payload : String
  deriving DecidableEq, Repr

/-- Embeds the `DynamoState` type (DropZone.tsx lines 108-111):
an optional `currentOpenGraph` plus the `connectionState`. -/
structure DynamoState where
  currentOpenGraph : Option GraphInfo
  connectionState : DynamoConnectionState
  deriving DecidableEq, Repr

/-- Embeds a JavaScript error value as observed by the catch handlers:
`status` is `none` for plain network failures (which carry no HTTP
status) and `some c` for a `FetchError` with HTTP status `c`; `message`
is the error message string. -/
structure JsError where
  status : Option Nat
  message : String
  deriving DecidableEq, Repr

/-- The two `useState` cells of `useDynamoConnector` taken together:
`state` (the `DynamoState`) and `dynamoPort` (the discovered port,
`none` when undefined). -/
structure ConnectorState where
  state : DynamoState
  dynamoPort : Option Nat
  deriving DecidableEq, Repr

/-- Embeds the functional update used at every `setState` call site:
`setState((state) => ({ ...state, connectionState: c }))` — the spread
keeps every other field of the state object. -/
def setConnectionState (c : DynamoConnectionState) (st : DynamoState) : DynamoState :=
  { st with connectionState := c }

/-- Outcome of one `Dynamo.health(port)` probe promise: fulfilled with
the responding port, rejected without an HTTP status (network failure /
timeout), or rejected with a `FetchError` carrying HTTP status `c`. -/
inductive ProbeResult where
  | live (port : Nat)
  | unreachable
  | rejected (status : Nat)
  deriving DecidableEq, Repr

/-- The port a fulfilled probe resolved with, if the probe fulfilled. -/
def livePort : ProbeResult → Option Nat
  | ProbeResult.live p => some p
  | _ => none

/-- Whether a probe rejection is a `FetchError` with `status === 503`,
as tested by `e.errors.find((e) => (e as FetchError).status === 503)`. -/
def isRejected503 : ProbeResult → Bool
  | ProbeResult.rejected s => s == 503
  | _ => false

/-- Whether a probe outcome is a rejection that carries an HTTP status. -/
def isRejected : ProbeResult → Bool
  | ProbeResult.rejected _ => true
  | _ => false

/-- `defaultPort` from `portDiscovery` (DropZone.tsx line 123). -/
def defaultPort : Nat := 55100

/-- `portsToCheck = [...Array(10)].map((_, i) => defaultPort + i)`
(DropZone.tsx line 125). -/
def portsToCheck : List Nat :=
  (List.range 10).map (fun i => defaultPort + i)

/-- `Promise.any` over the probe promises: resolves with the port of the
first probe to fulfil, taking the outcomes in settlement order; `none`
when every probe rejects (the `AggregateError` case). -/
def firstLive (rs : List ProbeResult) : Option Nat :=
  (rs.filterMap livePort).head?

/-- First statement of `portDiscovery`: `setDynamoPort(undefined)`
clears the discovered port before any probe settles. -/
def portDiscoveryStart (cs : ConnectorState) : ConnectorState :=
  { cs with dynamoPort := none }

/-- Remainder of `portDiscovery` (DropZone.tsx lines 126-139) applied to
the settled probe outcomes: if `Promise.any` fulfilled, set state
`CONNECTED` and store the responding port; otherwise inspect the
aggregated rejections — any `503` yields `BLOCKED`, else
`NOT_CONNECTED`. -/
def portDiscoveryFinish (cs : ConnectorState) (rs : List ProbeResult) : ConnectorState :=
  match firstLive rs with
  | some p =>
      { state := setConnectionState DynamoConnectionState.CONNECTED cs.state,
        dynamoPort := some p }
  | none =>
      if rs.any isRejected503 then
        { cs with state := setConnectionState DynamoConnectionState.BLOCKED cs.state }
      else
        { cs with state := setConnectionState DynamoConnectionState.NOT_CONNECTED cs.state }

/-- One whole discovery round: clear the port, then classify the settled
probe outcomes. -/
def portDiscovery (cs : ConnectorState) (rs : List ProbeResult) : ConnectorState :=
  portDiscoveryFinish (portDiscoveryStart cs) rs

/-- The error-feedback state update shared by the catch handlers of
`folder`, `info`, `run` and `trust`: set `connectionState` to
`LOST_CONNECTION`, touching nothing else (in particular not
`dynamoPort`, for which no `setDynamoPort` call appears there). -/
def demoteLost (cs : ConnectorState) : ConnectorState :=
  { cs with state := setConnectionState DynamoConnectionState.LOST_CONNECTION cs.state }

namespace dynamoLocalService

/-- The condition exempted from demotion in the `info` catch handler:
`e.status === 500 && e.message === "Graph is not trusted."`. -/
def isNotTrustedError (e : JsError) : Bool :=
  e.status == some 500 && e.message == "Graph is not trusted."

/-- `dynamoLocalService.folder` (DropZone.tsx lines 171-179): on any
rejection, demote to `LOST_CONNECTION` and re-throw the same error. -/
def folder {α : Type} (cs : ConnectorState) (r : Except JsError α) :
    ConnectorState × Except JsError α :=
  match r with
  | Except.ok v => (cs, Except.ok v)
  | Except.error e => (demoteLost cs, Except.error e)

/-- `dynamoLocalService.current` (DropZone.tsx lines 180-182): a plain
call to `dynamo.info({ type: "CurrentGraphTarget" })` with no catch
handler — the settled result passes through and the state is untouched. -/
def current {α : Type} (cs : ConnectorState) (r : Except JsError α) :
    ConnectorState × Except JsError α :=
  (cs, r)

/-- `dynamoLocalService.info` (DropZone.tsx lines 183-193): on a
rejection, demote to `LOST_CONNECTION` unless the error is the
"Graph is not trusted." 500, and re-throw the same error either way. -/
def info {α : Type} (cs : ConnectorState) (r : Except JsError α) :
    ConnectorState × Except JsError α :=
  match r with
  | Except.ok v => (cs, Except.ok v)
  | Except.error e =>
      if isNotTrustedError e then (cs, Except.error e)
      else (demoteLost cs, Except.error e)

/-- `dynamoLocalService.run` (DropZone.tsx lines 194-202): same catch
handler as `folder`. -/
def run {α : Type} (cs : ConnectorState) (r : Except JsError α) :
    ConnectorState × Except JsError α :=
  match r with
  | Except.ok v => (cs, Except.ok v)
  | Except.error e => (demoteLost cs, Except.error e)

/-- `dynamoLocalService.trust` (DropZone.tsx lines 203-211): same catch
handler as `folder`. -/
def trust {α : Type} (cs : ConnectorState) (r : Except JsError α) :
    ConnectorState × Except JsError α :=
  match r with
  | Except.ok v => (cs, Except.ok v)
  | Except.error e => (demoteLost cs, Except.error e)

/-- `dynamoLocalService.serverInfo` (DropZone.tsx lines 212-214): a
plain call to `dynamo.serverInfo()` with no catch handler. -/
def serverInfo {α : Type} (cs : ConnectorState) (r : Except JsError α) :
    ConnectorState × Except JsError α :=
  (cs, r)

end dynamoLocalService

/-- The connection states listed in the retry `useEffect`
(DropZone.tsx lines 150-156). -/
def retryStates : List DynamoConnectionState :=
  [DynamoConnectionState.NOT_CONNECTED,
   DynamoConnectionState.MULTIPLE_CONNECTIONS,
   DynamoConnectionState.BLOCKED,
   DynamoConnectionState.LOST_CONNECTION]

/-- Embeds the retry `useEffect` (DropZone.tsx lines 148-163): the
interval period (in milliseconds) armed for a given connection state,
`none` when no interval is set. -/
def effectTimerInterval (s : DynamoConnectionState) : Option Nat :=
  if s ∈ retryStates then some 2000 else none

/-- Embeds the first `useEffect` (DropZone.tsx lines 142-146): whether
`portDiscovery()` is invoked directly (not through a timer) when the
connection state takes the given value. -/
def effectInitDiscovery (s : DynamoConnectionState) : Bool :=
  s == DynamoConnectionState.INIT

/-- Observable events of the serial request queue: task `i` begins
executing, or task `i` settles (fulfils or rejects). -/
inductive QueueEvent where
  | begins (i : Nat)
  | settles (i : Nat)
  deriving DecidableEq, Repr

/-- Modelled from the spec: `PromiseQueue` (imported from
`./utils/PromiseQueue.ts`, a file not present under `src/`) is described
in §4.4 and §9 as a promise-chaining serial queue, re-expressed as a
single-worker loop that consumes one task at a time from the ordered
channel, runs it to completion, records its settled result (success or
failure alike) and moves on to the next task. `runQueueFrom i ts` runs
the tasks of `ts`, numbered from `i` in submission order, returning the
event trace and the settled results. -/
def runQueueFrom {ε α : Type} (i : Nat) :
    List (Unit → Except ε α) → List QueueEvent × List (Except ε α)
  | [] => ([], [])
  | t :: rest =>
      let res := t ()
      let tail := runQueueFrom (i + 1) rest
      (QueueEvent.begins i :: QueueEvent.settles i :: tail.1, res :: tail.2)

/-- Modelled from the spec: running the whole queue on the tasks
submitted in FIFO order, numbered from 0. -/
def runQueue {ε α : Type} (ts : List (Unit → Except ε α)) :
    List QueueEvent × List (Except ε α) :=
  runQueueFrom 0 ts

/-- A connector state that has a discovered endpoint while `CONNECTED`,
as produced by a successful discovery round on port 55103. -/
def csConnected : ConnectorState :=
  { state := { currentOpenGraph := none,
               connectionState := DynamoConnectionState.CONNECTED },
    dynamoPort := some 55103 }

/-- The startup state: `INIT`, no open graph, no discovered port. -/
def initialConnectorState : ConnectorState :=
  { state := { currentOpenGraph := none,
               connectionState := DynamoConnectionState.INIT },
    dynamoPort := none }

/-- A connectivity-class failure: a network timeout, which carries no
HTTP status and is not the benign "Graph is not trusted." error. -/
def timeoutError : JsError :=
  { status := none, message := "network timeout" }

/-- The benign application-level error exempted by the `info` catch
handler: HTTP 500 with the exact message `"Graph is not trusted."`. -/
def notTrustedError : JsError :=
  { status := some 500, message := "Graph is not trusted." }

/-- A round (outcomes in settlement order) in which two probes fulfil:
ports 55100 and 55101 are both live. -/
def twoLiveRound : List ProbeResult :=
  [ProbeResult.live 55100, ProbeResult.live 55101,
   ProbeResult.unreachable, ProbeResult.unreachable, ProbeResult.unreachable,
   ProbeResult.unreachable, ProbeResult.unreachable, ProbeResult.unreachable,
   ProbeResult.unreachable, ProbeResult.unreachable]

/-- A round in which exactly one probe fulfils, on port 55103, and the
other nine candidates are unreachable. -/
def singleLiveRound : List ProbeResult :=
  [ProbeResult.unreachable, ProbeResult.unreachable, ProbeResult.unreachable,
   ProbeResult.live 55103, ProbeResult.unreachable, ProbeResult.unreachable,
   ProbeResult.unreachable, ProbeResult.unreachable, ProbeResult.unreachable,
   ProbeResult.unreachable]

/-- A round with no live probe and one `503` rejection. -/
def blockedRound : List ProbeResult :=
  [ProbeResult.rejected 503, ProbeResult.unreachable, ProbeResult.unreachable,
   ProbeResult.unreachable, ProbeResult.unreachable, ProbeResult.unreachable,
   ProbeResult.unreachable, ProbeResult.unreachable, ProbeResult.unreachable,
   ProbeResult.unreachable]

/-- A round with no live probe and no rejection at all. -/
def allUnreachableRound : List ProbeResult :=
  [ProbeResult.unreachable, ProbeResult.unreachable, ProbeResult.unreachable,
   ProbeResult.unreachable, ProbeResult.unreachable, ProbeResult.unreachable,
   ProbeResult.unreachable, ProbeResult.unreachable, ProbeResult.unreachable,
   ProbeResult.unreachable]

/-- Three queued tasks, the middle one failing, used to exercise the
serial queue. -/
def demoTasks : List (Unit → Except String Nat) :=
  [fun _ => Except.ok 1, fun _ => Except.error "boom", fun _ => Except.ok 3]

/-- A round whose `Promise.any` fulfilled (some probe is live) produces
state `CONNECTED` with the first-settling live port as the endpoint. -/
lemma portDiscovery_connected_of_firstLive (cs : ConnectorState) (rs : List ProbeResult)
    (p : Nat) (h : firstLive rs = some p) :
    (portDiscovery cs rs).state.connectionState = DynamoConnectionState.CONNECTED ∧
    (portDiscovery cs rs).dynamoPort = some p := by
  unfold portDiscovery portDiscoveryFinish
  rw [h]
  exact ⟨rfl, rfl⟩

/-- A discovery round always classifies into one of `CONNECTED`,
`BLOCKED`, `NOT_CONNECTED`; in particular it never leaves the state at
`LOST_CONNECTION` nor produces `MULTIPLE_CONNECTIONS`. -/
lemma portDiscovery_classification (cs : ConnectorState) (rs : List ProbeResult) :
    (portDiscovery cs rs).state.connectionState = DynamoConnectionState.CONNECTED ∨
    (portDiscovery cs rs).state.connectionState = DynamoConnectionState.BLOCKED ∨
    (portDiscovery cs rs).state.connectionState = DynamoConnectionState.NOT_CONNECTED := by
  unfold portDiscovery portDiscoveryFinish
  cases firstLive rs with
  | some p => exact Or.inl rfl
  | none =>
      by_cases hb : rs.any isRejected503 = true
      · rw [if_pos hb]
        exact Or.inr (Or.inl rfl)
      · rw [if_neg hb]
        exact Or.inr (Or.inr rfl)

/-- The endpoint after a round is exactly what `Promise.any` fulfilled
with: it was cleared at round start and is re-set only on success. -/
lemma portDiscovery_dynamoPort (cs : ConnectorState) (rs : List ProbeResult) :
    (portDiscovery cs rs).dynamoPort = firstLive rs := by
  unfold portDiscovery portDiscoveryFinish
  cases firstLive rs with
  | some p => rfl
  | none =>
      by_cases hb : rs.any isRejected503 = true
      · rw [if_pos hb]
        rfl
      · rw [if_neg hb]
        rfl

/-- A discovery round never touches `currentOpenGraph`: every
`setState` it performs spreads the previous state object. -/
lemma portDiscovery_currentOpenGraph (cs : ConnectorState) (rs : List ProbeResult) :
    (portDiscovery cs rs).state.currentOpenGraph = cs.state.currentOpenGraph := by
  unfold portDiscovery portDiscoveryFinish portDiscoveryStart setConnectionState
  cases firstLive rs with
  | some p => rfl
  | none =>
      by_cases hb : rs.any isRejected503 = true
      · rw [if_pos hb]
      · rw [if_neg hb]

/-- A rejection matching the 503 test is in particular a rejection. -/
lemma isRejected_of_isRejected503 (r : ProbeResult) :
    isRejected503 r = true → isRejected r = true := by
  cases r <;> simp [isRejected503, isRejected]

/-- The results of the queue are the settled values of every submitted
task, in submission order — a failing task is recorded and the runner
moves on. -/
lemma runQueueFrom_results {ε α : Type} (ts : List (Unit → Except ε α)) :
    ∀ i : Nat, (runQueueFrom i ts).2 = ts.map (fun t => t ()) := by
  induction ts with
  | nil => intro i; rfl
  | cons t rest ih =>
      intro i
      simp only [runQueueFrom, List.map]
      rw [ih (i + 1)]

/-- Positions of the begin/settle events of task `k` in the trace of
`runQueueFrom i`: task `k` begins at index `2k` and settles at `2k+1`. -/
lemma runQueueFrom_trace_get {ε α : Type} (ts : List (Unit → Except ε α)) :
    ∀ (i k : Nat), k < ts.length →
      (runQueueFrom i ts).1.get? (2 * k) = some (QueueEvent.begins (i + k)) ∧
      (runQueueFrom i ts).1.get? (2 * k + 1) = some (QueueEvent.settles (i + k)) := by
  induction ts with
  | nil =>
      intro i k hk
      exact absurd hk (by simp)
  | cons t rest ih =>
      intro i k hk
      cases k with
      | zero => exact ⟨rfl, rfl⟩
      | succ k =>
          have hk2 : k < rest.length := by
            simpa using Nat.lt_of_succ_lt_succ hk
          obtain ⟨h1, h2⟩ := ih (i + 1) k hk2
          have e1 : 2 * (k + 1) = 2 * k + 1 + 1 := by ring
          have e2 : 2 * (k + 1) + 1 = (2 * k + 1 + 1) + 1 := by ring
          have eidx : i + 1 + k = i + (k + 1) := by omega
          constructor
          · rw [e1]
            simp only [runQueueFrom, List.get?_cons_succ]
            rw [h1, eidx]
          · rw [e2]
            simp only [runQueueFrom, List.get?_cons_succ]
            rw [h2, eidx]

/-- Claim C1 is false as stated: `serverInfo` is a Facade operation, yet
when it fails with a connectivity-class failure (a timeout, which is not
the benign "Graph is not trusted." error), the connection state is left
at `CONNECTED` — it is not set to `LOST_CONNECTION` — while the failure
is still re-raised. The source `serverInfo` (and `current`) has no
`catch` handler. -/
theorem C1_counterexample :
    dynamoLocalService.isNotTrustedError timeoutError = false ∧
    (dynamoLocalService.serverInfo csConnected
        (Except.error timeoutError : Except JsError Nat)).1.state.connectionState =
      DynamoConnectionState.CONNECTED ∧
    (dynamoLocalService.serverInfo csConnected
        (Except.error timeoutError : Except JsError Nat)).2 =
      Except.error timeoutError :=
  ⟨by decide, rfl, rfl⟩

/-- Claim C1, amended: on a rejection, `folder`, `run` and `trust`
always demote to `LOST_CONNECTION` and re-raise the original failure;
`info` does so for every non-benign failure; but `current` and
`serverInfo` re-raise the failure without changing the connection
state. -/
theorem C1_amended_behavior :
    ∀ (α : Type) (cs : ConnectorState) (e : JsError),
      (dynamoLocalService.isNotTrustedError e = false →
        dynamoLocalService.info cs (Except.error e : Except JsError α) =
          (demoteLost cs, Except.error e)) ∧
      dynamoLocalService.folder cs (Except.error e : Except JsError α) =
        (demoteLost cs, Except.error e) ∧
      dynamoLocalService.run cs (Except.error e : Except JsError α) =
        (demoteLost cs, Except.error e) ∧
      dynamoLocalService.trust cs (Except.error e : Except JsError α) =
        (demoteLost cs, Except.error e) ∧
      dynamoLocalService.current cs (Except.error e : Except JsError α) =
        (cs, Except.error e) ∧
      dynamoLocalService.serverInfo cs (Except.error e : Except JsError α) =
        (cs, Except.error e) := by
  intro α cs e
  refine ⟨fun h => ?_, rfl, rfl, rfl, rfl, rfl⟩
  simp [dynamoLocalService.info, h]

/-- Witness for the amended C1 at a concrete input: a timeout rejection
of `info` on a connected state demotes to `LOST_CONNECTION`. -/
theorem C1_witness :
    dynamoLocalService.isNotTrustedError timeoutError = false ∧
    dynamoLocalService.info csConnected (Except.error timeoutError : Except JsError Nat) =
      (demoteLost csConnected, Except.error timeoutError) :=
  ⟨by decide, (C1_amended_behavior Nat csConnected timeoutError).1 (by decide)⟩

/-- Claim C2 is false as stated: in a round where two probes return
live (ports 55100 and 55101), `Promise.any` resolves with the first
fulfilled probe, so the state becomes `CONNECTED` (not
`MULTIPLE_CONNECTIONS`) and the endpoint is set to 55100 (not left
absent). -/
theorem C2_counterexample :
    (twoLiveRound.filterMap livePort).length = 2 ∧
    (portDiscovery initialConnectorState twoLiveRound).state.connectionState =
      DynamoConnectionState.CONNECTED ∧
    (portDiscovery initialConnectorState twoLiveRound).dynamoPort = some 55100 := by
  decide

/-- Claim C2, amended: whenever at least one probe fulfils, the round
yields `CONNECTED` with the endpoint set to the first live port to
settle — an arbitrary selection among the live ports — and no round ever
yields `MULTIPLE_CONNECTIONS` (the classification is always one of
`CONNECTED`, `BLOCKED`, `NOT_CONNECTED`). -/
theorem C2_amended_first_live_wins :
    (∀ (cs : ConnectorState) (rs : List ProbeResult) (p : Nat),
      firstLive rs = some p →
        (portDiscovery cs rs).state.connectionState = DynamoConnectionState.CONNECTED ∧
        (portDiscovery cs rs).dynamoPort = some p) ∧
    (∀ (cs : ConnectorState) (rs : List ProbeResult),
      (portDiscovery cs rs).state.connectionState = DynamoConnectionState.CONNECTED ∨
      (portDiscovery cs rs).state.connectionState = DynamoConnectionState.BLOCKED ∨
      (portDiscovery cs rs).state.connectionState = DynamoConnectionState.NOT_CONNECTED) :=
  ⟨portDiscovery_connected_of_firstLive, portDiscovery_classification⟩

/-- Witness for the amended C2 at the two-live round: the first live
port, 55100, wins and the state is `CONNECTED`. -/
theorem C2_witness :
    firstLive twoLiveRound = some 55100 ∧
    (portDiscovery initialConnectorState twoLiveRound).state.connectionState =
      DynamoConnectionState.CONNECTED ∧
    (portDiscovery initialConnectorState twoLiveRound).dynamoPort = some 55100 :=
  ⟨by decide,
   C2_amended_first_live_wins.1 initialConnectorState twoLiveRound 55100 (by decide)⟩

/-- Claim C3 is false as stated: when the state becomes
`LOST_CONNECTION`, the only effect that invokes `portDiscovery` directly
does not fire (it fires only for `INIT`); the state merely arms the
2000 ms retry interval, so the next round runs after the timer interval,
not immediately. -/
theorem C3_counterexample :
    effectInitDiscovery DynamoConnectionState.LOST_CONNECTION = false ∧
    effectTimerInterval DynamoConnectionState.LOST_CONNECTION = some 2000 := by
  decide

/-- Claim C3, amended: a demotion to `LOST_CONNECTION` does not trigger
an immediate re-discovery round; it arms the 2000 ms background
interval, and when a round does run its outcome supersedes
`LOST_CONNECTION` — every round ends in `CONNECTED`, `BLOCKED` or
`NOT_CONNECTED`. -/
theorem C3_amended_timer_supersedes :
    effectInitDiscovery DynamoConnectionState.LOST_CONNECTION = false ∧
    effectTimerInterval DynamoConnectionState.LOST_CONNECTION = some 2000 ∧
    ∀ (cs : ConnectorState) (rs : List ProbeResult),
      (portDiscovery cs rs).state.connectionState = DynamoConnectionState.CONNECTED ∨
      (portDiscovery cs rs).state.connectionState = DynamoConnectionState.BLOCKED ∨
      (portDiscovery cs rs).state.connectionState = DynamoConnectionState.NOT_CONNECTED :=
  ⟨by decide, by decide, portDiscovery_classification⟩

/-- Claim C4: an `info` rejection with HTTP status 500 and message
`"Graph is not trusted."` is re-raised with the whole connector state
unchanged; every other `info` rejection demotes the connection state to
`LOST_CONNECTION` and is re-raised. -/
theorem C4_info_not_trusted_exempt :
    ∀ (α : Type) (cs : ConnectorState) (e : JsError),
      (dynamoLocalService.isNotTrustedError e = true →
        dynamoLocalService.info cs (Except.error e : Except JsError α) =
          (cs, Except.error e)) ∧
      (dynamoLocalService.isNotTrustedError e = false →
        dynamoLocalService.info cs (Except.error e : Except JsError α) =
          (demoteLost cs, Except.error e)) := by
  intro α cs e
  constructor <;> intro h <;> simp [dynamoLocalService.info, h]

/-- Witness for C4 at concrete inputs: the "Graph is not trusted." 500
leaves the state untouched, while a timeout demotes it. -/
theorem C4_witness :
    (dynamoLocalService.isNotTrustedError notTrustedError = true ∧
      dynamoLocalService.info csConnected
          (Except.error notTrustedError : Except JsError Nat) =
        (csConnected, Except.error notTrustedError)) ∧
    (dynamoLocalService.isNotTrustedError timeoutError = false ∧
      dynamoLocalService.info csConnected
          (Except.error timeoutError : Except JsError Nat) =
        (demoteLost csConnected, Except.error timeoutError)) :=
  ⟨⟨by decide, (C4_info_not_trusted_exempt Nat csConnected notTrustedError).1 (by decide)⟩,
   ⟨by decide, (C4_info_not_trusted_exempt Nat csConnected timeoutError).2 (by decide)⟩⟩

/-- Claim C5: in a round where no probe fulfils, the presence of a 503
rejection among the aggregated errors yields `BLOCKED`; if no rejection
carrying an HTTP status is present at all, the round yields
`NOT_CONNECTED`. -/
theorem C5_zero_live_classification :
    ∀ (cs : ConnectorState) (rs : List ProbeResult),
      (∀ r ∈ rs, livePort r = none) →
      ((∃ r ∈ rs, r = ProbeResult.rejected 503) →
        (portDiscovery cs rs).state.connectionState = DynamoConnectionState.BLOCKED) ∧
      ((∀ r ∈ rs, isRejected r = false) →
        (portDiscovery cs rs).state.connectionState = DynamoConnectionState.NOT_CONNECTED) := by
  intro cs rs hnl
  have hfl : firstLive rs = none := by
    unfold firstLive
    rw [List.filterMap_eq_nil_iff.mpr hnl]
    rfl
  constructor
  · rintro ⟨r, hr, rfl⟩
    have hany : rs.any isRejected503 = true :=
      List.any_eq_true.mpr ⟨_, hr, by simp [isRejected503]⟩
    unfold portDiscovery portDiscoveryFinish
    rw [hfl, if_pos hany]
    rfl
  · intro hnr
    have hany : rs.any isRejected503 = false := by
      cases hc : rs.any isRejected503 with
      | false => rfl
      | true =>
          obtain ⟨r, hr, hp⟩ := List.any_eq_true.mp hc
          have h1 : isRejected r = true := isRejected_of_isRejected503 r hp
          have h2 : isRejected r = false := hnr r hr
          rw [h1] at h2
          exact absurd h2 (by simp)
    unfold portDiscovery portDiscoveryFinish
    rw [hfl, if_neg (by simp [hany])]
    rfl

/-- Witness for C5: a round with one 503 rejection and nine unreachable
ports is `BLOCKED`; a round with ten unreachable ports is
`NOT_CONNECTED`. -/
theorem C5_witness :
    (portDiscovery initialConnectorState blockedRound).state.connectionState =
      DynamoConnectionState.BLOCKED ∧
    (portDiscovery initialConnectorState allUnreachableRound).state.connectionState =
      DynamoConnectionState.NOT_CONNECTED :=
  ⟨(C5_zero_live_classification initialConnectorState blockedRound (by decide)).1 (by decide),
   (C5_zero_live_classification initialConnectorState allUnreachableRound (by decide)).2
     (by decide)⟩

/-- Claim C6: the candidate ports are exactly 55100 through 55109, and
a round in which exactly one probe fulfils with port `p` while every
other probe is unreachable yields `CONNECTED` with the endpoint set to
`p`. -/
theorem C6_single_live_connects :
    portsToCheck = [55100, 55101, 55102, 55103, 55104,
                    55105, 55106, 55107, 55108, 55109] ∧
    ∀ (cs : ConnectorState) (rs : List ProbeResult) (p : Nat),
      rs.filterMap livePort = [p] →
      (∀ r ∈ rs, r = ProbeResult.live p ∨ r = ProbeResult.unreachable) →
      (portDiscovery cs rs).state.connectionState = DynamoConnectionState.CONNECTED ∧
      (portDiscovery cs rs).dynamoPort = some p := by
  refine ⟨by decide, ?_⟩
  intro cs rs p hone _
  have hfl : firstLive rs = some p := by
    unfold firstLive
    rw [hone]
    rfl
  exact portDiscovery_connected_of_firstLive cs rs p hfl

/-- Witness for C6: the spec scenario — port 55103 live among candidates
55100 to 55109, the rest unreachable — connects with endpoint 55103. -/
theorem C6_witness :
    (portDiscovery initialConnectorState singleLiveRound).state.connectionState =
      DynamoConnectionState.CONNECTED ∧
    (portDiscovery initialConnectorState singleLiveRound).dynamoPort = some 55103 :=
  C6_single_live_connects.2 initialConnectorState singleLiveRound 55103 (by decide) (by decide)

/-- Claim C7 is false as stated: starting from the state reached by a
successful round on port 55103, a `folder` rejection demotes the state
to `LOST_CONNECTION` yet the endpoint is still 55103 — the
error-feedback path never calls `setDynamoPort`, so the endpoint is
present while the state is not `CONNECTED`. -/
theorem C7_counterexample :
    (dynamoLocalService.folder (portDiscovery initialConnectorState singleLiveRound)
        (Except.error timeoutError : Except JsError Nat)).1.state.connectionState =
      DynamoConnectionState.LOST_CONNECTION ∧
    (dynamoLocalService.folder (portDiscovery initialConnectorState singleLiveRound)
        (Except.error timeoutError : Except JsError Nat)).1.dynamoPort = some 55103 := by
  decide

/-- Claim C7, amended: the endpoint is cleared at the start of every
discovery round, and after a round it equals exactly what `Promise.any`
fulfilled with (absent whenever no probe was live); but the
error-feedback demotion to `LOST_CONNECTION` leaves the endpoint
unchanged, so it can remain present while the state is away from
`CONNECTED` until the next round starts. -/
theorem C7_amended_endpoint_lifecycle :
    (∀ cs : ConnectorState, (portDiscoveryStart cs).dynamoPort = none) ∧
    (∀ (cs : ConnectorState) (rs : List ProbeResult),
      (portDiscovery cs rs).dynamoPort = firstLive rs) ∧
    (∀ (α : Type) (cs : ConnectorState) (e : JsError),
      (dynamoLocalService.folder cs (Except.error e : Except JsError α)).1.dynamoPort =
        cs.dynamoPort ∧
      (dynamoLocalService.info cs (Except.error e : Except JsError α)).1.dynamoPort =
        cs.dynamoPort ∧
      (dynamoLocalService.run cs (Except.error e : Except JsError α)).1.dynamoPort =
        cs.dynamoPort ∧
      (dynamoLocalService.trust cs (Except.error e : Except JsError α)).1.dynamoPort =
        cs.dynamoPort) := by
  refine ⟨fun cs => rfl, portDiscovery_dynamoPort, ?_⟩
  intro α cs e
  refine ⟨rfl, ?_, rfl, rfl⟩
  cases h : dynamoLocalService.isNotTrustedError e <;>
    simp [dynamoLocalService.info, h, demoteLost]

/-- Claim C8: the retry interval is armed at 2000 ms exactly for
`NOT_CONNECTED`, `MULTIPLE_CONNECTIONS`, `BLOCKED` and
`LOST_CONNECTION`; it is disabled for `CONNECTED` and `INIT`; and the
direct (non-timer) discovery invocation fires exactly for `INIT`, which
makes a round run automatically once on first use. -/
theorem C8_timer_enumeration :
    effectTimerInterval DynamoConnectionState.NOT_CONNECTED = some 2000 ∧
    effectTimerInterval DynamoConnectionState.MULTIPLE_CONNECTIONS = some 2000 ∧
    effectTimerInterval DynamoConnectionState.BLOCKED = some 2000 ∧
    effectTimerInterval DynamoConnectionState.LOST_CONNECTION = some 2000 ∧
    effectTimerInterval DynamoConnectionState.CONNECTED = none ∧
    effectTimerInterval DynamoConnectionState.INIT = none ∧
    effectInitDiscovery DynamoConnectionState.INIT = true ∧
    effectInitDiscovery DynamoConnectionState.CONNECTED = false ∧
    effectInitDiscovery DynamoConnectionState.MULTIPLE_CONNECTIONS = false ∧
    effectInitDiscovery DynamoConnectionState.NOT_CONNECTED = false ∧
    effectInitDiscovery DynamoConnectionState.BLOCKED = false ∧
    effectInitDiscovery DynamoConnectionState.LOST_CONNECTION = false := by
  decide

/-- Claim C9: tasks run one at a time in FIFO submission order — for
any two submission indices `i < j`, task `i` settles (at trace position
`2i+1`) strictly before task `j` begins (at trace position `2j`) — and
a failing task does not block the queue: the settled results are the
outcomes of every submitted task, in order, failures included. -/
theorem C9_queue_fifo :
    ∀ (ε α : Type) (ts : List (Unit → Except ε α)) (i j : Nat),
      i < j → j < ts.length →
      (runQueue ts).1.get? (2 * i + 1) = some (QueueEvent.settles i) ∧
      (runQueue ts).1.get? (2 * j) = some (QueueEvent.begins j) ∧
      2 * i + 1 < 2 * j ∧
      (runQueue ts).2 = ts.map (fun t => t ()) := by
  intro ε α ts i j hij hj
  have hi : i < ts.length := lt_trans hij hj
  obtain ⟨-, h2⟩ := runQueueFrom_trace_get ts 0 i hi
  obtain ⟨h3, -⟩ := runQueueFrom_trace_get ts 0 j hj
  refine ⟨?_, ?_, by omega, runQueueFrom_results ts 0⟩
  · simpa [runQueue] using h2
  · simpa [runQueue] using h3

/-- Witness for C9 on three concrete tasks, the middle one failing:
task 1 settles before task 2 begins, and all three results (including
the failure) are recorded in submission order. -/
theorem C9_witness :
    (1 : Nat) < 2 ∧ 2 < demoTasks.length ∧
    ((runQueue demoTasks).1.get? (2 * 1 + 1) = some (QueueEvent.settles 1) ∧
     (runQueue demoTasks).1.get? (2 * 2) = some (QueueEvent.begins 2) ∧
     2 * 1 + 1 < 2 * 2 ∧
     (runQueue demoTasks).2 = demoTasks.map (fun t => t ())) :=
  ⟨by decide, by decide, C9_queue_fifo String Nat demoTasks 1 2 (by decide) (by decide)⟩

/-- Claim C10: every connection-state update performed by the connector
— the classification of a discovery round as well as each facade
operation, on success or failure — leaves `currentOpenGraph` unchanged:
each call site spreads the previous state and overwrites only
`connectionState`. -/
theorem C10_frame_currentOpenGraph :
    ∀ cs : ConnectorState,
      (∀ rs : List ProbeResult,
        (portDiscovery cs rs).state.currentOpenGraph = cs.state.currentOpenGraph) ∧
      (∀ (α : Type) (r : Except JsError α),
        (dynamoLocalService.folder cs r).1.state.currentOpenGraph =
          cs.state.currentOpenGraph ∧
        (dynamoLocalService.current cs r).1.state.currentOpenGraph =
          cs.state.currentOpenGraph ∧
        (dynamoLocalService.info cs r).1.state.currentOpenGraph =
          cs.state.currentOpenGraph ∧
        (dynamoLocalService.run cs r).1.state.currentOpenGraph =
          cs.state.currentOpenGraph ∧
        (dynamoLocalService.trust cs r).1.state.currentOpenGraph =
          cs.state.currentOpenGraph ∧
        (dynamoLocalService.serverInfo cs r).1.state.currentOpenGraph =
          cs.state.currentOpenGraph) := by
  intro cs
  refine ⟨portDiscovery_currentOpenGraph cs, ?_⟩
  intro α r
  cases r with
  | ok v => exact ⟨rfl, rfl, rfl, rfl, rfl, rfl⟩
  | error e =>
      refine ⟨rfl, rfl, ?_, rfl, rfl, rfl⟩
      cases h : dynamoLocalService.isNotTrustedError e <;>
        simp [dynamoLocalService.info, h, demoteLost, setConnectionState]
